import Mathlib

/-!
Verification of the CustomGpt assistant platform against its specification.

The definitions below are a shallow embedding of the server core:
the storage layer (`src/server/storage.ts`, in-memory implementation
`MemStorage`), the declared database cascade semantics
(`src/shared/schema.ts`), the HTTP route handlers that the claims are
about (`src/server/routes.ts`), and the client-side upload validation
(`src/client/src/components/upload-section.tsx`).

Modelling conventions:
* ids and opaque remote handles are `String`; timestamps (`Date`) are `Nat`;
* nullable columns are `Option`; JavaScript string truthiness
  (`if (x)` / `x || undefined`) is modelled explicitly (`"" ↦ none`);
* the external OpenAI calls are oracles: a route model takes the
  outcome of the external call as a parameter;
* fresh ids and the current time, produced effectfully in the source,
  are explicit parameters of each operation.
-/

namespace CustomGpt

/-- A row of the `users` table (src/shared/schema.ts, `users`). -/
structure User where
  id : String
  username : String
  password : String
  role : String
  createdAt : Nat
  deriving DecidableEq, Repr

/-- A row of the `assistants` table (src/shared/schema.ts, `assistants`). -/
structure Assistant where
  id : String
  name : String
  description : Option String
  instructions : String
  openaiAssistantId : Option String
  openaiVectorStoreId : Option String
  model : String
  isActive : Nat
  createdAt : Nat
  updatedAt : Nat
  deriving DecidableEq, Repr

/-- A row of the `uploaded_files` table (src/shared/schema.ts, `uploadedFiles`). -/
structure UploadedFile where
  id : String
  assistantId : String
  filename : String
  originalName : String
  size : Nat
  mimeType : String
  openaiFileId : Option String
  openaiVectorStoreFileId : Option String
  uploadedAt : Nat
  description : Option String
  deriving DecidableEq, Repr

/-- A row of the `user_assistant_access` table (src/shared/schema.ts). -/
structure UserAssistantAccess where
  id : String
  userId : String
  assistantId : String
  createdAt : Nat
  deriving DecidableEq, Repr

/-- A row of the `chat_sessions` table (src/shared/schema.ts, `chatSessions`).
`responseId` is the continuation token of the most recent turn. -/
structure ChatSession where
  id : String
  userId : Option String
  assistantId : Option String
  responseId : Option String
  title : String
  isTest : Nat
  createdAt : Nat
  updatedAt : Nat
  deriving DecidableEq, Repr

/-- A citation as produced by `chatWithFilesearch`
(src/server/services/openai.ts, interface `Citation`). -/
structure Citation where
  source : String
  content : String
  page : Option Nat
  deriving DecidableEq, Repr

/-- A row of the `chat_messages` table (src/shared/schema.ts, `chatMessages`). -/
structure ChatMessage where
  id : String
  sessionId : String
  role : String
  content : String
  citations : Option (List Citation)
  timestamp : Nat
  deriving DecidableEq, Repr

/-- The state of `MemStorage` (src/server/storage.ts): one list per `Map`,
kept in insertion order. -/
structure MemStorage where
  users : List User
  files : List UploadedFile
  assistants : List Assistant
  userAssistantAccess : List UserAssistantAccess
  sessions : List ChatSession
  messages : List ChatMessage
  deriving DecidableEq, Repr

/-- Model of `MemStorage.getSession` (storage.ts line 313): lookup by id. -/
def getSession (st : MemStorage) (id : String) : Option ChatSession :=
  st.sessions.find? (fun s => s.id == id)

/-- Model of `MemStorage.getAssistant` (storage.ts line 199): lookup by id. -/
def getAssistant (st : MemStorage) (id : String) : Option Assistant :=
  st.assistants.find? (fun a => a.id == id)

/-- Model of `MemStorage.getFile` (storage.ts line 136): lookup by id. -/
def getFile (st : MemStorage) (id : String) : Option UploadedFile :=
  st.files.find? (fun f => f.id == id)

/-- Stable insertion of a message into a list sorted by ascending timestamp,
inserting after equal timestamps (matching the stable JS sort in
`MemStorage.getMessages`). -/
def insertByTimestamp (m : ChatMessage) : List ChatMessage → List ChatMessage
  | [] => [m]
  | x :: xs =>
    if m.timestamp < x.timestamp then m :: x :: xs
    else x :: insertByTimestamp m xs

/-- Stable sort of messages by ascending timestamp. -/
def sortByTimestamp : List ChatMessage → List ChatMessage
  | [] => []
  | x :: xs => insertByTimestamp x (sortByTimestamp xs)

/-- Model of `MemStorage.getMessages` (storage.ts lines 358-362): the session's
messages, in ascending timestamp order (stable). -/
def getMessages (st : MemStorage) (sessionId : String) : List ChatMessage :=
  sortByTimestamp (st.messages.filter (fun m => m.sessionId == sessionId))

/-- Model of `MemStorage.createMessage` (storage.ts lines 364-381): stores the message
and refreshes the owning session's `updatedAt`. The fresh id and timestamp of
the message are already part of `m`. -/
def createMessage (st : MemStorage) (m : ChatMessage) : MemStorage :=
  { st with
    messages := st.messages ++ [m]
    sessions := st.sessions.map (fun s =>
      if s.id == m.sessionId then { s with updatedAt := m.timestamp } else s) }

/-- Model of `MemStorage.updateSession` (storage.ts lines 334-345): merge the partial
update `f` into the stored session, refresh `updatedAt`, and return the
updated row (`none` when the session does not exist, leaving the store
unchanged). -/
def updateSession (st : MemStorage) (id : String) (f : ChatSession → ChatSession)
    (now : Nat) : MemStorage × Option ChatSession :=
  match getSession st id with
  | none => (st, none)
  | some s =>
    ({ st with sessions := st.sessions.map (fun x => if x.id == id then { f s with updatedAt := now } else x) },
     some { f s with updatedAt := now })

/-- Model of `MemStorage.createFile` (storage.ts lines 146-158). The fresh id and
timestamp are already part of `f`. -/
def createFile (st : MemStorage) (f : UploadedFile) : MemStorage :=
  { st with files := st.files ++ [f] }

/-- Model of `MemStorage.deleteFile` (storage.ts lines 160-162). -/
def deleteFile (st : MemStorage) (id : String) : MemStorage :=
  { st with files := st.files.filter (fun f => !(f.id == id)) }

/-- Model of `MemStorage.deleteSession` (storage.ts lines 347-355): removes the session
and all of its messages. -/
def deleteSession (st : MemStorage) (id : String) : MemStorage :=
  { st with
    sessions := st.sessions.filter (fun s => !(s.id == id))
    messages := st.messages.filter (fun m => !(m.sessionId == id)) }

/-- Model of `MemStorage.deleteAssistant` (storage.ts lines 242-255): removes the
assistant, cascades to its files and to the access grants referencing it.
Sessions are not touched by this implementation (their `assistantId`
link is left as it was). -/
def deleteAssistant (st : MemStorage) (id : String) : MemStorage :=
  { st with
    assistants := st.assistants.filter (fun a => !(a.id == id))
    files := st.files.filter (fun f => !(f.assistantId == id))
    userAssistantAccess := st.userAssistantAccess.filter (fun g => !(g.assistantId == id)) }

/-- The cascade semantics declared by the database schema for deleting an
assistant (src/shared/schema.ts lines 27-66): `uploadedFiles.assistantId`
and `userAssistantAccess.assistantId` have `onDelete: "cascade"`, while
`chatSessions.assistantId` has `onDelete: "set null"`. This is the behavior
of `DbStorage.deleteAssistant` (storage.ts lines 509-512), which delegates
the cascades to these foreign-key constraints. -/
def dbDeleteAssistant (st : MemStorage) (id : String) : MemStorage :=
  { st with
    assistants := st.assistants.filter (fun a => !(a.id == id))
    files := st.files.filter (fun f => !(f.assistantId == id))
    userAssistantAccess := st.userAssistantAccess.filter (fun g => !(g.assistantId == id))
    sessions := st.sessions.map (fun s =>
      if s.assistantId == some id then { s with assistantId := none } else s) }

/-- JavaScript's `x || undefined` on a nullable string: the empty string is
falsy and coerces to `undefined` (routes.ts line 612, `session.responseId ||
undefined`). -/
def orUndefined : Option String → Option String
  | some ("") => none
  | x => x

/-- Model of `verifySessionOwnership` (routes.ts lines 45-49): false when the session
does not exist, and also false when it exists but `session.userId !==
userId`. -/
def verifySessionOwnership (st : MemStorage) (sessionId userId : String) : Bool :=
  match getSession st sessionId with
  | none => false
  | some s => decide (s.userId = some userId)

/-- An HTTP route outcome: either a success payload (`res.json(...)` /
`res.send(...)`) or an error status with its message body. -/
inductive HttpRes (α : Type) where
  | ok (payload : α)
  | error (status : Nat) (message : String)
  deriving DecidableEq, Repr

/-- The outcome of the external `chatWithFilesearch` call
(src/server/services/openai.ts lines 415-481): on success, the answer
text, the extracted citations, and the new continuation token
(`responseId = response.id`); on failure, the thrown error's message. -/
inductive ChatOutcome where
  | success (content : String) (citations : List Citation) (responseId : String)
  | failure (errMsg : String)
  deriving DecidableEq, Repr

/-- The success body of the chat endpoint (routes.ts lines 629-632). -/
structure ChatPayload where
  content : String
  citations : List Citation
  deriving DecidableEq, Repr

/-- The chat endpoint, `POST /api/sessions/:sessionId/chat`
(routes.ts lines 568-636), for an authenticated user `userId`:

1. reject a missing/non-string body message with 400;
2. `verifySessionOwnership`, answering 404 "Session not found" both when the
   session does not exist and when it is owned by another user;
3. load the session and its assistant (400 when no assistant is selected,
   404 when the assistant row is gone);
4. persist the user's message;
5. invoke `chatWithFilesearch` (its outcome is the `outcome` parameter);
   on failure the handler answers 500 with the error message and performs
   no further write;
6. on success, overwrite the session's `responseId` — but only when the
   returned token is truthy (`if (result.responseId)`, line 617);
7. persist the assistant's message (empty citation list stored as null);
8. answer 200 with content and citations.

`userMsgId`, `asstMsgId` and `now` stand for the ids and timestamps
generated inside `storage.createMessage`. -/
def chatRoute (st : MemStorage) (userId sessionId : String) (message : Option String)
    (outcome : ChatOutcome) (userMsgId asstMsgId : String) (now : Nat) :
    MemStorage × HttpRes ChatPayload :=
  match message with
  | none => (st, .error 400 "Message is required")
  | some msg =>
    if verifySessionOwnership st sessionId userId then
      match getSession st sessionId with
      | none => (st, .error 404 "Session not found")
      | some session =>
        match session.assistantId with
        | none => (st, .error 400 "No assistant selected for this session")
        | some assistantId =>
          match getAssistant st assistantId with
          | none => (st, .error 404 "Assistant not found")
          | some _assistant =>
            let st1 := createMessage st
              { id := userMsgId, sessionId := sessionId, role := "user"
                content := msg, citations := none, timestamp := now }
            match outcome with
            | .failure e => (st1, .error 500 e)
            | .success content citations responseId =>
              let st2 :=
                if responseId ≠ "" then
                  (updateSession st1 sessionId
                    (fun s => { s with responseId := some responseId }) now).1
                else st1
              let st3 := createMessage st2
                { id := asstMsgId, sessionId := sessionId, role := "assistant"
                  content := content
                  citations := if citations.length > 0 then some citations else none
                  timestamp := now }
              (st3, .ok { content := content, citations := citations })
    else (st, .error 404 "Session not found")

/-- Model of `GET /api/sessions/:sessionId/messages` (routes.ts lines 552-565). -/
def messagesRoute (st : MemStorage) (userId sessionId : String) :
    MemStorage × HttpRes (List ChatMessage) :=
  if verifySessionOwnership st sessionId userId then
    (st, .ok (getMessages st sessionId))
  else (st, .error 404 "Session not found")

/-- Model of `DELETE /api/sessions/:id` (routes.ts lines 536-549). -/
def deleteSessionRoute (st : MemStorage) (userId sessionId : String) :
    MemStorage × HttpRes String :=
  if verifySessionOwnership st sessionId userId then
    (deleteSession st sessionId, .ok ("Session deleted successfully"))
  else (st, .error 404 "Session not found")

/-- Model of `PATCH /api/sessions/:id` (routes.ts lines 515-533): update the title. -/
def patchSessionRoute (st : MemStorage) (userId sessionId title : String)
    (now : Nat) : MemStorage × HttpRes ChatSession :=
  if verifySessionOwnership st sessionId userId then
    match updateSession st sessionId (fun s => { s with title := title }) now with
    | (st', none) => (st', .error 404 "Session not found")
    | (st', some s') => (st', .ok s')
  else (st, .error 404 "Session not found")

/-- Render a string as a JSON string literal. The repository never escapes
on export, and the claims only involve escape-free values, so no escaping
is modelled. -/
def jsonStr (s : String) : String := "\"" ++ s ++ "\""

/-- Serialize one citation the way `JSON.stringify` renders the `Citation`
objects built by `chatWithFilesearch` (`page` is always `undefined` there,
and `JSON.stringify` drops `undefined`-valued keys). -/
def serializeCitation (c : Citation) : String :=
  "\x7b\"source\":" ++ jsonStr c.source ++ ",\"content\":" ++ jsonStr c.content ++
    (match c.page with
     | none => ""
     | some n => ",\"page\":" ++ toString n) ++ "\x7d"

/-- Serialize a nullable citation list (`null` or a JSON array). -/
def serializeCitations : Option (List Citation) → String
  | none => "null"
  | some l => "[" ++ String.intercalate (",") (l.map serializeCitation) ++ "]"

/-- Serialize one exported message, in the field order of the object literal
at routes.ts lines 682-687. Timestamps are rendered as decimal numbers
(dates are opaque to every claim; the rendering is injective). -/
def serializeExportMessage (m : ChatMessage) : String :=
  "\x7b\"role\":" ++ jsonStr m.role ++ ",\"content\":" ++ jsonStr m.content ++
    ",\"citations\":" ++ serializeCitations m.citations ++
    ",\"timestamp\":" ++ toString m.timestamp ++ "\x7d"

/-- Serialize the whole JSON export body (routes.ts lines 675-689): the
session header, the message list, and the `exportedAt: new Date()` stamp
taken at call time. -/
def serializeExport (session : ChatSession) (messages : List ChatMessage)
    (exportedAt : Nat) : String :=
  "\x7b\"session\":\x7b\"id\":" ++ jsonStr session.id ++
    ",\"title\":" ++ jsonStr session.title ++
    ",\"createdAt\":" ++ toString session.createdAt ++
    ",\"updatedAt\":" ++ toString session.updatedAt ++
    "\x7d,\"messages\":[" ++
    String.intercalate (",") (messages.map serializeExportMessage) ++
    "],\"exportedAt\":" ++ toString exportedAt ++ "\x7d"

/-- Model of `GET /api/sessions/:sessionId/export` with `format=json`
(routes.ts lines 655-693): ownership guard, then the serialized export
body. `now` is the wall-clock time of the call (`new Date()` at line 688). -/
def exportJsonRoute (st : MemStorage) (userId sessionId : String) (now : Nat) :
    MemStorage × HttpRes String :=
  if verifySessionOwnership st sessionId userId then
    match getSession st sessionId with
    | none => (st, .error 404 "Session not found")
    | some session =>
      (st, .ok (serializeExport session (getMessages st sessionId) now))
  else (st, .error 404 "Session not found")

/-- The multipart file received by the upload endpoint (the fields of
`req.file` that the handler uses). -/
structure ReqFile where
  path : String
  filename : String
  originalName : String
  size : Nat
  mimeType : String
  deriving DecidableEq, Repr

/-- Model of `POST /api/assistants/:id/files` (routes.ts lines 362-401): validate the
request and the assistant, upload the bytes to the external file store
(`uploadOutcome` is the id it returns, `uploadFileToOpenAI`, lines 52-66),
attach the file to the assistant's knowledge base (`attachOutcome`,
`attachFileToAssistant`), and only then persist the file row via
`storage.createFile`. Any external failure is caught by the surrounding
`try`/`catch` and answered as 500 — reaching it before the
`storage.createFile` call means no row is written. -/
def uploadFilesRoute (st : MemStorage) (assistantId : String)
    (reqFile : Option ReqFile) (description : Option String)
    (uploadOutcome : Except String String) (attachOutcome : Except String Unit)
    (newFileId : String) (now : Nat) : MemStorage × HttpRes UploadedFile :=
  match reqFile with
  | none => (st, .error 400 "No file uploaded")
  | some f =>
    match getAssistant st assistantId with
    | none => (st, .error 404 "Assistant not found")
    | some assistant =>
      match assistant.openaiAssistantId with
      | none => (st, .error 400 "Assistant not initialized with OpenAI")
      | some _ =>
        match uploadOutcome with
        | .error e => (st, .error 500 e)
        | .ok openaiFileId =>
          match attachOutcome with
          | .error e => (st, .error 500 e)
          | .ok _ =>
            let row : UploadedFile :=
              { id := newFileId, assistantId := assistantId
                filename := f.filename, originalName := f.originalName
                size := f.size, mimeType := f.mimeType
                openaiFileId := some openaiFileId
                openaiVectorStoreFileId := none
                uploadedAt := now, description := description }
            (createFile st row, .ok row)

/-- The side effects of the file-deletion endpoint on systems other than the
database: remote index removals (assistant id × file id pairs passed to
`removeFileFromAssistant`) and local staged files unlinked from disk. -/
structure DeleteFileEffects where
  remoteRemovals : List (String × String)
  localUnlinks : List String
  deriving DecidableEq, Repr

/-- Model of `DELETE /api/assistants/:id/files/:fileId` (routes.ts lines 404-441):
validate the assistant and the file, refuse with 403 when the file's owning
assistant differs from `:id` (before any side effect), otherwise remove the
file from the remote index (when both remote handles exist), unlink the
local staged file, and delete the row. -/
def deleteFileRoute (st : MemStorage) (assistantId fileId : String) :
    MemStorage × HttpRes String × DeleteFileEffects :=
  match getAssistant st assistantId with
  | none => (st, .error 404 "Assistant not found", ⟨[], []⟩)
  | some assistant =>
    match getFile st fileId with
    | none => (st, .error 404 "File not found", ⟨[], []⟩)
    | some file =>
      if file.assistantId ≠ assistantId then
        (st, .error 403 "File does not belong to this assistant", ⟨[], []⟩)
      else
        let remote :=
          match assistant.openaiAssistantId, file.openaiFileId with
          | some oa, some ofi => [(oa, ofi)]
          | _, _ => []
        (deleteFile st fileId, .ok ("File deleted successfully"),
         ⟨remote, [file.filename]⟩)

/-- A file as seen by the browser (the fields of the DOM `File` object used
by the client-side validation). -/
structure BrowserFile where
  type : String
  size : Nat
  deriving DecidableEq, Repr

/-- The four ways `handleFileSelect` can end. -/
inductive UploadAction where
  | noSelection
  | invalidFile
  | fileTooLarge
  | limitReached
  | mutate
  deriving DecidableEq, Repr

/-- Model of `UploadSection.handleFileSelect`
(src/client/src/components/upload-section.tsx lines 73-105): take the first
selected file; reject non-PDF types, then sizes strictly above
`10 * 1024 * 1024` bytes with the "File Too Large" toast, then a file count
already at 3; otherwise start the upload mutation. Every rejection returns
before `uploadMutation.mutate`, so a rejected file causes no side effect. -/
def handleFileSelect (selectedFiles : List BrowserFile) (existingCount : Nat) :
    UploadAction :=
  match selectedFiles with
  | [] => .noSelection
  | f :: _ =>
    if f.type ≠ "application/pdf" then .invalidFile
    else if f.size > 10 * 1024 * 1024 then .fileTooLarge
    else if existingCount ≥ 3 then .limitReached
    else .mutate

/-- The continuation token currently stored on a session (the session's
`responseId` column), `none` when the session does not exist. -/
def storedToken (st : MemStorage) (sessionId : String) : Option String :=
  match getSession st sessionId with
  | none => none
  | some s => s.responseId

/-- The field list of a `User` row as an ordered key/value record, the shape
`res.json` receives. `createdAt` is rendered in decimal. -/
def userFields (u : User) : List (String × String) :=
  [(("id"), u.id), (("username"), u.username), (("password"), u.password),
   (("role"), u.role), (("createdAt"), toString u.createdAt)]

/-- The JavaScript rest-destructuring `const { password, ...userWithoutPassword }
= user`: every field except `password`, order preserved. -/
def omitPassword (fields : List (String × String)) : List (String × String) :=
  fields.filter (fun kv => kv.1 ≠ "password")

/-- The response body of `POST /api/auth/signup` (routes.ts lines 89-93). -/
def signupBody (u : User) : List (String × String) :=
  omitPassword (userFields u)

/-- The response body of `POST /api/auth/admin-signup`
(routes.ts lines 131-135). -/
def adminSignupBody (u : User) : List (String × String) :=
  omitPassword (userFields u)

/-- The response body of `POST /api/auth/login` (routes.ts lines 152-156). -/
def loginBody (u : User) : List (String × String) :=
  omitPassword (userFields u)

/-- The response body of `GET /api/auth/me` (routes.ts lines 169-176). -/
def meBody (u : User) : List (String × String) :=
  omitPassword (userFields u)

/-- The response body of `GET /api/users` (routes.ts lines 179-187):
`users.map(({ password, ...user }) => user)`. -/
def usersBody (us : List User) : List (List (String × String)) :=
  us.map (fun u => omitPassword (userFields u))

/-- The per-turn data of one concurrent chat request: the user's text, the
external call's answer text and continuation token, and the generated
message ids and timestamp. -/
structure TurnSpec where
  msg : String
  content : String
  token : String
  userMsgId : String
  asstMsgId : String
  now : Nat
  deriving DecidableEq, Repr

/-- The control state of one in-flight chat request: its program counter
over the four storage interactions, and the continuation token it captured
for its upstream request. -/
structure TurnCtl where
  pc : Nat
  sent : Option String
  deriving DecidableEq, Repr

/-- The initial control state of a request. -/
def initCtl : TurnCtl := { pc := 0, sent := none }

/-- The user message a concurrent chat request persists (routes.ts line
601). -/
def userMsgOf (sid : String) (t : TurnSpec) : ChatMessage :=
  { id := t.userMsgId, sessionId := sid, role := "user", content := t.msg
    citations := none, timestamp := t.now }

/-- The assistant message a concurrent chat request persists (routes.ts
line 622); its citations are irrelevant to the concurrency claim and fixed
as none. -/
def asstMsgOf (sid : String) (t : TurnSpec) : ChatMessage :=
  { id := t.asstMsgId, sessionId := sid, role := "assistant"
    content := t.content, citations := none, timestamp := t.now }

/-- One atomic storage interaction of the chat handler's post-validation
body (routes.ts lines 585-627), used to analyse two concurrent requests on
the same session. The handler has no lock, so a request is a sequence of
four steps any interleaving of which is reachable:

* pc 0: the session read at line 585, which captures
  `session.responseId || undefined` — the token later sent upstream at
  line 612;
* pc 1: persisting the user's message (line 601);
* pc 2: the continuation-token overwrite (lines 616-619, skipped for a
  falsy token);
* pc 3: persisting the assistant's message (line 622; its citations are
  irrelevant to the concurrency claim and fixed as none here).

The external call itself touches no shared storage; its result is the
`TurnSpec`. A completed request has pc 4 and steps no further. -/
def turnStep (sid : String) (t : TurnSpec) (st : MemStorage) (c : TurnCtl) :
    MemStorage × TurnCtl :=
  match c.pc with
  | 0 =>
    (st, { c with
           pc := 1
           sent := (match getSession st sid with
                    | none => none
                    | some s => orUndefined s.responseId) })
  | 1 => (createMessage st (userMsgOf sid t), { c with pc := 2 })
  | 2 =>
    ((if t.token ≠ "" then
        (updateSession st sid (fun s => { s with responseId := some t.token }) t.now).1
      else st),
     { c with pc := 3 })
  | 3 => (createMessage st (asstMsgOf sid t), { c with pc := 4 })
  | _ => (st, c)

/-- The joint state of the store and two concurrent chat requests A and B. -/
structure ConcState where
  store : MemStorage
  ctlA : TurnCtl
  ctlB : TurnCtl
  deriving DecidableEq, Repr

/-- Run one step of request A (`pick = true`) or request B (`pick = false`). -/
def concStep (sid : String) (tA tB : TurnSpec) (s : ConcState) (pick : Bool) :
    ConcState :=
  match pick with
  | true =>
    { store := (turnStep sid tA s.store s.ctlA).1
      ctlA := (turnStep sid tA s.store s.ctlA).2
      ctlB := s.ctlB }
  | false =>
    { store := (turnStep sid tB s.store s.ctlB).1
      ctlA := s.ctlA
      ctlB := (turnStep sid tB s.store s.ctlB).2 }

/-- Run a whole schedule (an interleaving of the two requests' steps). -/
def execSched (sid : String) (tA tB : TurnSpec) : List Bool → ConcState → ConcState
  | [], s => s
  | p :: rest, s => execSched sid tA tB rest (concStep sid tA tB s p)

/-- The invariant of two concurrent chat turns on session `sid`: the session
row survives; once a request has persisted its user message (pc ≥ 2) that
message stays in the store; and once either request has performed its token
write (pc ≥ 3) the stored continuation token is one of the two turns'
tokens. -/
def ConcInv (sid : String) (tA tB : TurnSpec) (s : ConcState) : Prop :=
  (∃ row, getSession s.store sid = some row)
  ∧ (s.ctlA.pc ≥ 2 → userMsgOf sid tA ∈ s.store.messages)
  ∧ (s.ctlB.pc ≥ 2 → userMsgOf sid tB ∈ s.store.messages)
  ∧ ((s.ctlA.pc ≥ 3 ∨ s.ctlB.pc ≥ 3) →
      storedToken s.store sid = some tA.token ∨ storedToken s.store sid = some tB.token)

/-- One chat turn of the conversation engine, as submitted through the chat
endpoint with a successful external outcome. -/
structure Turn where
  msg : String
  content : String
  citations : List Citation
  token : String
  userMsgId : String
  asstMsgId : String
  now : Nat
  deriving DecidableEq, Repr

/-- The store after one successful turn of the chat endpoint. -/
def runTurn (uid sid : String) (st : MemStorage) (t : Turn) : MemStorage :=
  (chatRoute st uid sid (some t.msg) (.success t.content t.citations t.token)
    t.userMsgId t.asstMsgId t.now).1

/-- The store after a sequence of successful turns of the chat endpoint. -/
def runTurns (uid sid : String) (st : MemStorage) (ts : List Turn) : MemStorage :=
  ts.foldl (runTurn uid sid) st

/-- A sample user. -/
def sampleUser : User :=
  { id := "u1", username := "alice", password := "hash", role := "user"
    createdAt := 0 }

/-- A sample assistant, initialized with both remote handles. -/
def sampleAssistant : Assistant :=
  { id := "as1", name := "Support Bot", description := none
    instructions := "be helpful", openaiAssistantId := some ("oa1")
    openaiVectorStoreId := some ("vs1"), model := "gpt-5", isActive := 1
    createdAt := 0, updatedAt := 0 }

/-- A sample session owned by `sampleUser`, bound to `sampleAssistant`,
whose stored continuation token is `"a"`. -/
def sampleSession : ChatSession :=
  { id := "s1", userId := some ("u1"), assistantId := some ("as1")
    responseId := some ("a"), title := "T", isTest := 0
    createdAt := 0, updatedAt := 0 }

/-- A sample store holding the sample user, assistant and session. -/
def sampleStore : MemStorage :=
  { users := [sampleUser], files := [], assistants := [sampleAssistant]
    userAssistantAccess := [], sessions := [sampleSession], messages := [] }

/-- An entirely empty store. -/
def emptyStore : MemStorage :=
  { users := [], files := [], assistants := [], userAssistantAccess := []
    sessions := [], messages := [] }

/-- A sample uploaded file owned by `sampleAssistant`. -/
def sampleFile : UploadedFile :=
  { id := "f1", assistantId := "as1", filename := "staged.pdf"
    originalName := "manual.pdf", size := 5, mimeType := "application/pdf"
    openaiFileId := some ("of1"), openaiVectorStoreFileId := none
    uploadedAt := 0, description := none }

/-- A sample access grant for `sampleUser` on `sampleAssistant`. -/
def sampleGrant : UserAssistantAccess :=
  { id := "g1", userId := "u1", assistantId := "as1", createdAt := 0 }

/-- A store exercising the assistant-deletion cascade: the assistant, one
owned file, one access grant, and one session linked to the assistant. -/
def cascadeStore : MemStorage :=
  { users := [sampleUser], files := [sampleFile], assistants := [sampleAssistant]
    userAssistantAccess := [sampleGrant], sessions := [sampleSession]
    messages := [] }

/-- A file owned by a different assistant than `sampleAssistant`. -/
def foreignFile : UploadedFile :=
  { id := "f2", assistantId := "as2", filename := "other.pdf"
    originalName := "other.pdf", size := 7, mimeType := "application/pdf"
    openaiFileId := some ("of2"), openaiVectorStoreFileId := none
    uploadedAt := 0, description := none }

/-- A store where `sampleAssistant` exists but the only file belongs to a
different assistant. -/
def mismatchStore : MemStorage :=
  { users := [], files := [foreignFile], assistants := [sampleAssistant]
    userAssistantAccess := [], sessions := [], messages := [] }

/-- A session with no continuation token yet (a fresh conversation). -/
def freshSession : ChatSession :=
  { id := "s1", userId := some ("u1"), assistantId := some ("as1")
    responseId := none, title := "T", isTest := 0, createdAt := 0
    updatedAt := 0 }

/-- A store holding a fresh session, used for the concurrency scenario. -/
def freshStore : MemStorage :=
  { users := [sampleUser], files := [], assistants := [sampleAssistant]
    userAssistantAccess := [], sessions := [freshSession], messages := [] }

/-- Concurrency scenario, request A. -/
def specA : TurnSpec :=
  { msg := "ma", content := "ca", token := "ra", userMsgId := "ua"
    asstMsgId := "aa", now := 1 }

/-- Concurrency scenario, request B. -/
def specB : TurnSpec :=
  { msg := "mb", content := "cb", token := "rb", userMsgId := "ub"
    asstMsgId := "ab", now := 2 }

/-- Run a schedule of the concurrency scenario from the fresh store. -/
def c9Run (sch : List Bool) : ConcState :=
  execSched ("s1") specA specB sch
    { store := freshStore, ctlA := initCtl, ctlB := initCtl }

/-- The observable upstream requests of a schedule: the continuation token
each request captured and sent to the external answering service. -/
def c9Obs (sch : List Bool) : Option String × Option String :=
  ((c9Run sch).ctlA.sent, (c9Run sch).ctlB.sent)

/-- The fully serial schedule running request A, then request B. -/
def schedAB : List Bool :=
  [true, true, true, true, false, false, false, false]

/-- The fully serial schedule running request B, then request A. -/
def schedBA : List Bool :=
  [false, false, false, false, true, true, true, true]

/-- An interleaved schedule: both requests read the session before either
has written its token. -/
def schedInterleaved : List Bool :=
  [true, false, true, false, true, false, true, false]

/-- A sample multipart upload request file. -/
def c4Req : ReqFile :=
  { path := "p", filename := "staged.pdf", originalName := "manual.pdf"
    size := 5, mimeType := "application/pdf" }

/-- First turn of a two-turn conversation. -/
def turn1 : Turn :=
  { msg := "m1", content := "c1", citations := [], token := "r1"
    userMsgId := "x1", asstMsgId := "y1", now := 1 }

/-- Second turn of a two-turn conversation. -/
def turn2 : Turn :=
  { msg := "m2", content := "c2", citations := [], token := "r2"
    userMsgId := "x2", asstMsgId := "y2", now := 2 }

/-- Lemma: `find?` commutes with a `map` whose function does not change the
predicate's verdict on any element. -/
theorem find?_map_comm {α : Type} (g : α → α) (p : α → Bool)
    (h : ∀ x, p (g x) = p x) (l : List α) :
    (l.map g).find? p = (l.find? p).map g := by
  induction l with
  | nil => rfl
  | cons x xs ih =>
    by_cases hx : p x = true
    · rw [List.map_cons, List.find?_cons_of_pos _ (by rw [h x]; exact hx),
        List.find?_cons_of_pos _ hx]
      rfl
    · rw [List.map_cons, List.find?_cons_of_neg _ (by rw [h x]; simpa using hx),
        List.find?_cons_of_neg _ (by simpa using hx), ih]

/-- Lemma: `createMessage` rewrites the session table pointwise (only the
matching session's `updatedAt` changes). -/
theorem getSession_createMessage (st : MemStorage) (m : ChatMessage) (sid : String) :
    getSession (createMessage st m) sid =
      (getSession st sid).map
        (fun s => if s.id == m.sessionId then { s with updatedAt := m.timestamp } else s) := by
  unfold getSession createMessage
  exact find?_map_comm _ _
    (fun x => by cases hx : x.id == m.sessionId <;> simp [hx]) st.sessions

/-- Lemma: when the target session exists, `createMessage` into it only
refreshes its `updatedAt`. -/
theorem getSession_createMessage_found (st : MemStorage) (m : ChatMessage)
    (s : ChatSession) (hs : getSession st m.sessionId = some s) :
    getSession (createMessage st m) m.sessionId =
      some { s with updatedAt := m.timestamp } := by
  have hpid : (s.id == m.sessionId) = true := by
    have h2 := List.find?_some
      (show List.find? (fun x => x.id == m.sessionId) st.sessions = some s from hs)
    exact h2
  rw [getSession_createMessage, hs]
  show some (if s.id == m.sessionId then { s with updatedAt := m.timestamp } else s) = _
  rw [hpid]
  rfl

/-- Lemma: `createMessage` leaves the assistant table untouched. -/
theorem getAssistant_createMessage (st : MemStorage) (m : ChatMessage) (aid : String) :
    getAssistant (createMessage st m) aid = getAssistant st aid := rfl

/-- Lemma: `createMessage` appends the new message. -/
theorem messages_createMessage (st : MemStorage) (m : ChatMessage) :
    (createMessage st m).messages = st.messages ++ [m] := rfl

/-- Lemma: the new message is in the store after `createMessage`. -/
theorem mem_createMessage_self (st : MemStorage) (m : ChatMessage) :
    m ∈ (createMessage st m).messages := by
  rw [messages_createMessage]
  exact List.mem_append_right _ (List.mem_singleton.mpr rfl)

/-- Lemma: `createMessage` keeps every previously stored message. -/
theorem mem_createMessage_mono (st : MemStorage) (m m' : ChatMessage)
    (h : m' ∈ st.messages) : m' ∈ (createMessage st m).messages := by
  rw [messages_createMessage]
  exact List.mem_append_left _ h

/-- Lemma: `updateSession` leaves the message table untouched. -/
theorem messages_updateSession (st : MemStorage) (id : String)
    (f : ChatSession → ChatSession) (now : Nat) :
    ((updateSession st id f now).1).messages = st.messages := by
  unfold updateSession
  cases hgs : getSession st id <;> rfl

/-- Lemma: `updateSession` leaves the assistant table untouched. -/
theorem assistants_updateSession (st : MemStorage) (id : String)
    (f : ChatSession → ChatSession) (now : Nat) :
    ((updateSession st id f now).1).assistants = st.assistants := by
  unfold updateSession
  cases hgs : getSession st id <;> rfl

/-- Lemma: `updateSession` leaves assistant lookups untouched. -/
theorem getAssistant_updateSession (st : MemStorage) (id : String)
    (f : ChatSession → ChatSession) (now : Nat) (aid : String) :
    getAssistant ((updateSession st id f now).1) aid = getAssistant st aid := by
  unfold getAssistant
  rw [assistants_updateSession]

/-- Lemma: when the target session exists and `f` preserves ids,
`updateSession` stores exactly the merged row. -/
theorem getSession_updateSession (st : MemStorage) (sid : String)
    (f : ChatSession → ChatSession) (now : Nat) (s : ChatSession)
    (hf : ∀ x, (f x).id = x.id) (hs : getSession st sid = some s) :
    getSession ((updateSession st sid f now).1) sid =
      some { f s with updatedAt := now } := by
  have hpid : (s.id == sid) = true := by
    have h2 := List.find?_some
      (show List.find? (fun x => x.id == sid) st.sessions = some s from hs)
    exact h2
  have hupd : ({ f s with updatedAt := now } : ChatSession).id == sid := by
    show ((f s).id == sid) = true
    rw [hf s]
    exact hpid
  unfold updateSession
  rw [hs]
  show getSession _ sid = _
  unfold getSession
  have hcomm : ∀ x : ChatSession,
      ((if x.id == sid then ({ f s with updatedAt := now } : ChatSession) else x).id == sid)
        = (x.id == sid) := by
    intro x
    cases hx : (x.id == sid) with
    | false =>
      rw [if_neg (by simp)]
      exact hx
    | true =>
      rw [if_pos rfl]
      exact hupd
  rw [find?_map_comm (fun x => if x.id == sid then { f s with updatedAt := now } else x)
    (fun x => x.id == sid) (fun x => hcomm x) st.sessions]
  rw [show List.find? (fun x => x.id == sid) st.sessions = some s from hs]
  show some (if s.id == sid then { f s with updatedAt := now } else s) = _
  rw [hpid]
  rfl

/-- Lemma: the stored continuation token is unchanged by `createMessage`. -/
theorem storedToken_createMessage (st : MemStorage) (m : ChatMessage) (sid : String) :
    storedToken (createMessage st m) sid = storedToken st sid := by
  unfold storedToken
  rw [getSession_createMessage st m sid]
  cases hgs : getSession st sid with
  | none => rfl
  | some s =>
    show (if s.id == m.sessionId then { s with updatedAt := m.timestamp } else s).responseId
      = s.responseId
    split <;> rfl

/-- Lemma: writing a continuation token through `updateSession` makes it the
stored token. -/
theorem storedToken_writeToken (st : MemStorage) (sid r : String) (now : Nat)
    (s : ChatSession) (hs : getSession st sid = some s) :
    storedToken
      ((updateSession st sid (fun x => { x with responseId := some r }) now).1) sid
      = some r := by
  unfold storedToken
  rw [getSession_updateSession st sid (fun x => { x with responseId := some r }) now s
    (fun x => rfl) hs]

/-- Lemma: ownership verification succeeds for the owner of an existing
session. -/
theorem verifyOwnership_true (st : MemStorage) (sid uid : String) (s : ChatSession)
    (hs : getSession st sid = some s) (hu : s.userId = some uid) :
    verifySessionOwnership st sid uid = true := by
  unfold verifySessionOwnership
  rw [hs]
  simp [hu]

/-- Lemma: ownership verification fails both when the session is absent and
when it is owned by someone else. -/
theorem verifyOwnership_false (st : MemStorage) (sid uid : String)
    (h : ∀ s, getSession st sid = some s → s.userId ≠ some uid) :
    verifySessionOwnership st sid uid = false := by
  unfold verifySessionOwnership
  cases hgs : getSession st sid with
  | none => rfl
  | some s => simp [h s hgs]

/-- C8: the client-side upload validation accepts a PDF of exactly
10485760 bytes (10 MiB) whenever the three-file limit is not yet reached,
and rejects a PDF of 10485761 bytes with the specific "File Too Large"
outcome regardless of the file count; the rejection returns before the
upload mutation, so it is side-effect free (it is not the `mutate`
outcome). -/
theorem c8_size_boundary (n : Nat) (hn : n < 3) :
    handleFileSelect [{ type := "application/pdf", size := 10485760 }] n
      = UploadAction.mutate
    ∧ (∀ m : Nat,
        handleFileSelect [{ type := "application/pdf", size := 10485761 }] m
          = UploadAction.fileTooLarge)
    ∧ UploadAction.fileTooLarge ≠ UploadAction.mutate := by
  refine ⟨?_, fun m => rfl, by decide⟩
  have h : handleFileSelect [{ type := "application/pdf", size := 10485760 }] n
      = if n ≥ 3 then UploadAction.limitReached else UploadAction.mutate := rfl
  rw [h]
  rw [if_neg (show ¬ (n ≥ 3) by omega)]

/-- Closed witness for the C8 theorem, at a store holding zero files. -/
theorem c8_witness :
    (0 < 3)
    ∧ handleFileSelect [{ type := "application/pdf", size := 10485760 }] 0
        = UploadAction.mutate :=
  ⟨by decide, (c8_size_boundary 0 (by decide)).1⟩

/-- C10: every route that returns a user object strips the stored password
hash before responding: the signup, admin-signup, login and current-user
bodies contain no password key for any user row, and neither does any
element of the admin user-list body. -/
theorem c10_password_stripped :
    (∀ u : User, (signupBody u).lookup ("password") = none)
    ∧ (∀ u : User, (adminSignupBody u).lookup ("password") = none)
    ∧ (∀ u : User, (loginBody u).lookup ("password") = none)
    ∧ (∀ u : User, (meBody u).lookup ("password") = none)
    ∧ (∀ us : List User,
        (usersBody us).all (fun b => (b.lookup ("password")).isNone) = true) := by
  refine ⟨fun u => rfl, fun u => rfl, fun u => rfl, fun u => rfl, fun us => ?_⟩
  rw [List.all_eq_true]
  intro b hb
  simp only [usersBody, List.mem_map] at hb
  obtain ⟨u, _, rfl⟩ := hb
  rfl

/-- C7: deleting a file through an assistant that does not own it fails with
the 403 ownership error and changes nothing: the store is returned as it
was, and no remote index removal or local unlink happens. -/
theorem c7_ownership_mismatch (st : MemStorage) (aid fid : String)
    (a : Assistant) (f : UploadedFile)
    (ha : getAssistant st aid = some a) (hf : getFile st fid = some f)
    (hdiff : f.assistantId ≠ aid) :
    deleteFileRoute st aid fid =
      (st, .error 403 "File does not belong to this assistant",
       { remoteRemovals := [], localUnlinks := [] }) := by
  simp [deleteFileRoute, ha, hf, hdiff]

/-- Closed witness for the C7 theorem: `mismatchStore` holds `foreignFile`,
owned by assistant "as2", while the request names assistant "as1". -/
theorem c7_witness :
    deleteFileRoute mismatchStore ("as1") ("f2") =
      (mismatchStore, .error 403 "File does not belong to this assistant",
       { remoteRemovals := [], localUnlinks := [] }) :=
  c7_ownership_mismatch mismatchStore ("as1") ("f2") sampleAssistant foreignFile
    rfl rfl (by decide)

/-- C4 counterexample: with the sample assistant initialized, a turn of the
upload endpoint whose remote upload succeeds but whose indexing step fails
answers 500 and leaves the file table empty — no DocumentRecord row with a
degraded status is persisted, contradicting the claim. -/
theorem c4_counterexample :
    (uploadFilesRoute sampleStore ("as1") (some c4Req) none (.ok ("of1"))
        (.error ("boom")) ("fid") 3).1.files = []
    ∧ (uploadFilesRoute sampleStore ("as1") (some c4Req) none (.ok ("of1"))
        (.error ("boom")) ("fid") 3).2 = .error 500 ("boom") := by
  decide

/-- C4 (amended): when the assistant is initialized, a successful remote
upload followed by an indexing failure surfaces the error as 500 and
persists nothing (the store is returned unchanged); a DocumentRecord row is
persisted only when the indexing step also succeeds. -/
theorem c4_indexing_failure (st : MemStorage) (aid : String) (f : ReqFile)
    (d : Option String) (oid e fid : String) (now : Nat)
    (a : Assistant) (oa : String)
    (ha : getAssistant st aid = some a) (hinit : a.openaiAssistantId = some oa) :
    uploadFilesRoute st aid (some f) d (.ok oid) (.error e) fid now
      = (st, .error 500 e)
    ∧ uploadFilesRoute st aid (some f) d (.ok oid) (.ok ()) fid now
      = (createFile st
          { id := fid, assistantId := aid, filename := f.filename
            originalName := f.originalName, size := f.size
            mimeType := f.mimeType, openaiFileId := some oid
            openaiVectorStoreFileId := none, uploadedAt := now
            description := d },
        .ok
          { id := fid, assistantId := aid, filename := f.filename
            originalName := f.originalName, size := f.size
            mimeType := f.mimeType, openaiFileId := some oid
            openaiVectorStoreFileId := none, uploadedAt := now
            description := d }) := by
  constructor <;> simp [uploadFilesRoute, ha, hinit]

/-- Closed witness for the C4 amended theorem. -/
theorem c4_witness :
    uploadFilesRoute sampleStore ("as1") (some c4Req) none (.ok ("of1"))
        (.error ("boom")) ("fid") 3
      = (sampleStore, .error 500 ("boom")) :=
  (c4_indexing_failure sampleStore ("as1") c4Req none ("of1") ("boom") ("fid") 3
    sampleAssistant ("oa1") rfl rfl).1

/-- C2: for the five session-scoped operations (chat turn, read messages,
delete session, update session, json export), a session id that does not
exist and one that exists but is owned by a different user produce the very
same response — status 404 with message "Session not found" — and leave the
store untouched. The hypothesis covers exactly those two cases, so the two
are indistinguishable to the caller. -/
theorem c2_session_ops_anti_enumeration (st : MemStorage) (uid sid : String)
    (hbad : ∀ s, getSession st sid = some s → s.userId ≠ some uid) :
    (∀ msg outcome umid amid now,
        chatRoute st uid sid (some msg) outcome umid amid now
          = (st, .error 404 "Session not found"))
    ∧ messagesRoute st uid sid = (st, .error 404 "Session not found")
    ∧ deleteSessionRoute st uid sid = (st, .error 404 "Session not found")
    ∧ (∀ title now, patchSessionRoute st uid sid title now
        = (st, .error 404 "Session not found"))
    ∧ (∀ now, exportJsonRoute st uid sid now
        = (st, .error 404 "Session not found")) := by
  have hown := verifyOwnership_false st sid uid hbad
  refine ⟨?_, ?_, ?_, ?_, ?_⟩ <;> intros <;>
    simp [chatRoute, messagesRoute, deleteSessionRoute, patchSessionRoute,
      exportJsonRoute, hown]

/-- Closed witness for the C2 theorem, at both sides of the hypothesis: a
store with no such session, and a store whose session belongs to another
user. -/
theorem c2_witness :
    messagesRoute emptyStore ("u1") ("s1")
      = (emptyStore, .error 404 "Session not found")
    ∧ messagesRoute sampleStore ("intruder") ("s1")
      = (sampleStore, .error 404 "Session not found") :=
  ⟨(c2_session_ops_anti_enumeration emptyStore ("u1") ("s1")
      (fun s h => nomatch h)).2.1,
   (c2_session_ops_anti_enumeration sampleStore ("intruder") ("s1")
      (fun s h => by cases Option.some.inj h; decide)).2.1⟩

/-- C6 (code bug): deleting the assistant from `cascadeStore` through
`MemStorage.deleteAssistant` removes the owned file and the access grant and
keeps the session alive, but leaves the session's `assistantId` pointing at
the deleted assistant instead of nulling it — contradicting the `set null`
behavior declared by the schema's foreign key, which the database-backed
implementation performs (last conjunct, `dbDeleteAssistant`). -/
theorem c6_cascade_eval :
    (deleteAssistant cascadeStore ("as1")).files = []
    ∧ (deleteAssistant cascadeStore ("as1")).userAssistantAccess = []
    ∧ (deleteAssistant cascadeStore ("as1")).assistants = []
    ∧ getSession (deleteAssistant cascadeStore ("as1")) ("s1") = some sampleSession
    ∧ sampleSession.assistantId = some ("as1")
    ∧ getSession (dbDeleteAssistant cascadeStore ("as1")) ("s1")
        = some { sampleSession with assistantId := none } := by
  decide

/-- C5 counterexample: exporting the same unchanged session twice in json
format is not byte-identical — the body embeds an `exportedAt` stamp taken
at call time, so two calls at different instants produce different bytes. -/
theorem c5_counterexample :
    (exportJsonRoute sampleStore ("u1") ("s1") 0).2
      ≠ (exportJsonRoute sampleStore ("u1") ("s1") 1).2 := by
  decide

/-- C5 (amended): the json export body is a pure function of the stored
session row, the stored message list, and the call instant; on an unchanged
session two exports are byte-identical exactly when their `exportedAt`
stamps coincide. -/
theorem c5_export_deterministic (st1 st2 : MemStorage) (uid sid : String)
    (now : Nat)
    (hsess : getSession st1 sid = getSession st2 sid)
    (hmsgs : getMessages st1 sid = getMessages st2 sid) :
    (exportJsonRoute st1 uid sid now).2 = (exportJsonRoute st2 uid sid now).2 := by
  have hv : verifySessionOwnership st1 sid uid = verifySessionOwnership st2 sid uid := by
    unfold verifySessionOwnership
    rw [hsess]
  unfold exportJsonRoute
  rw [hv, hsess, hmsgs]
  split
  · split <;> rfl
  · rfl

/-- Closed witness for the C5 amended theorem: the same store twice, at the
same instant. -/
theorem c5_witness :
    (exportJsonRoute sampleStore ("u1") ("s1") 5).2
      = (exportJsonRoute sampleStore ("u1") ("s1") 5).2 :=
  c5_export_deterministic sampleStore sampleStore ("u1") ("s1") 5 rfl rfl

/-- Lemma: the chat endpoint on a validated request with a failing external
call persists exactly the user message and answers 500. -/
theorem chatRoute_failure_eq (st : MemStorage) (uid sid aid msg umid amid : String)
    (now : Nat) (s : ChatSession) (a : Assistant) (e : String)
    (hs : getSession st sid = some s) (hu : s.userId = some uid)
    (haid : s.assistantId = some aid) (ha : getAssistant st aid = some a) :
    chatRoute st uid sid (some msg) (.failure e) umid amid now =
      (createMessage st
        { id := umid, sessionId := sid, role := "user", content := msg
          citations := none, timestamp := now },
       .error 500 e) := by
  have hown := verifyOwnership_true st sid uid s hs hu
  simp [chatRoute, hown, hs, haid, ha]

/-- Lemma: the chat endpoint on a validated request with a successful
external call persists the user message, performs the conditional token
overwrite, persists the assistant message, and answers 200. -/
theorem chatRoute_success_eq (st : MemStorage) (uid sid aid msg umid amid : String)
    (now : Nat) (s : ChatSession) (a : Assistant)
    (content : String) (citations : List Citation) (r : String)
    (hs : getSession st sid = some s) (hu : s.userId = some uid)
    (haid : s.assistantId = some aid) (ha : getAssistant st aid = some a) :
    chatRoute st uid sid (some msg) (.success content citations r) umid amid now =
      (createMessage
        (if r ≠ "" then
          (updateSession
            (createMessage st
              { id := umid, sessionId := sid, role := "user", content := msg
                citations := none, timestamp := now })
            sid (fun x => { x with responseId := some r }) now).1
         else
          createMessage st
            { id := umid, sessionId := sid, role := "user", content := msg
              citations := none, timestamp := now })
        { id := amid, sessionId := sid, role := "assistant", content := content
          citations := if citations.length > 0 then some citations else none
          timestamp := now },
       .ok { content := content, citations := citations }) := by
  have hown := verifyOwnership_true st sid uid s hs hu
  simp [chatRoute, hown, hs, haid, ha]

/-- C3: once a chat turn has passed session and assistant validation, the
user's message is persisted no matter how the external call ends, and when
the external call fails the handler answers 500 while the already-persisted
user message remains in the store (the failure does not roll the write
back). -/
theorem c3_write_ahead (st : MemStorage) (uid sid aid msg umid amid : String)
    (now : Nat) (s : ChatSession) (a : Assistant) (outcome : ChatOutcome)
    (hs : getSession st sid = some s) (hu : s.userId = some uid)
    (haid : s.assistantId = some aid) (ha : getAssistant st aid = some a) :
    ({ id := umid, sessionId := sid, role := "user", content := msg
       citations := none, timestamp := now } : ChatMessage)
      ∈ (chatRoute st uid sid (some msg) outcome umid amid now).1.messages
    ∧ (∀ e, outcome = .failure e →
        (chatRoute st uid sid (some msg) outcome umid amid now).2
          = .error 500 e) := by
  cases outcome with
  | failure e =>
    rw [chatRoute_failure_eq st uid sid aid msg umid amid now s a e hs hu haid ha]
    exact ⟨mem_createMessage_self st _, fun e' he => by cases he; rfl⟩
  | success content citations r =>
    rw [chatRoute_success_eq st uid sid aid msg umid amid now s a content citations r
      hs hu haid ha]
    refine ⟨?_, fun e' he => by cases he⟩
    apply mem_createMessage_mono
    by_cases hr : r ≠ ""
    · rw [if_pos hr, messages_updateSession]
      exact mem_createMessage_self st _
    · rw [if_neg hr]
      exact mem_createMessage_self st _

/-- Closed witness for the C3 theorem: a failing turn on the sample store. -/
theorem c3_witness :
    ({ id := "m1", sessionId := "s1", role := "user", content := "hi"
       citations := none, timestamp := 7 } : ChatMessage)
      ∈ (chatRoute sampleStore ("u1") ("s1") (some ("hi")) (.failure ("down"))
          ("m1") ("m2") 7).1.messages :=
  (c3_write_ahead sampleStore ("u1") ("s1") ("as1") ("hi") ("m1") ("m2") 7
    sampleSession sampleAssistant (.failure ("down")) rfl rfl rfl rfl).1

/-- Lemma: one successful chat turn with a non-empty token rewrites the
session row to carry that token (and the new timestamp), and leaves the
assistant lookup unchanged. -/
theorem runTurn_getSession (uid sid aid : String) (st : MemStorage)
    (s : ChatSession) (a : Assistant) (t : Turn)
    (hs : getSession st sid = some s) (hu : s.userId = some uid)
    (haid : s.assistantId = some aid) (ha : getAssistant st aid = some a)
    (htok : t.token ≠ "") :
    getSession (runTurn uid sid st t) sid
        = some { s with responseId := some t.token, updatedAt := t.now }
    ∧ getAssistant (runTurn uid sid st t) aid = some a := by
  have hred : runTurn uid sid st t =
      createMessage
        ((updateSession
            (createMessage st
              { id := t.userMsgId, sessionId := sid, role := "user"
                content := t.msg, citations := none, timestamp := t.now })
            sid (fun x => { x with responseId := some t.token }) t.now).1)
        { id := t.asstMsgId, sessionId := sid, role := "assistant"
          content := t.content
          citations := if t.citations.length > 0 then some t.citations else none
          timestamp := t.now } := by
    unfold runTurn
    rw [chatRoute_success_eq st uid sid aid t.msg t.userMsgId t.asstMsgId t.now s a
      t.content t.citations t.token hs hu haid ha]
    rw [if_pos htok]
  constructor
  · rw [hred]
    have h1 := getSession_createMessage_found st
      { id := t.userMsgId, sessionId := sid, role := "user", content := t.msg
        citations := none, timestamp := t.now } s hs
    have h2 := getSession_updateSession _ sid
      (fun x => { x with responseId := some t.token }) t.now _ (fun x => rfl) h1
    have h3 := getSession_createMessage_found _
      { id := t.asstMsgId, sessionId := sid, role := "assistant"
        content := t.content
        citations := if t.citations.length > 0 then some t.citations else none
        timestamp := t.now } _ h2
    exact h3
  · rw [hred, getAssistant_createMessage, getAssistant_updateSession,
      getAssistant_createMessage]
    exact ha

/-- Lemma: over a non-empty run of successful turns with non-empty tokens,
the stored continuation token ends up being the last turn's token. -/
theorem runTurns_token_aux (uid sid aid : String) (a : Assistant) :
    ∀ (rest : List Turn) (t : Turn) (st : MemStorage) (s : ChatSession),
      getSession st sid = some s → s.userId = some uid →
      s.assistantId = some aid → getAssistant st aid = some a →
      (∀ x ∈ t :: rest, x.token ≠ "") →
      storedToken (runTurns uid sid st (t :: rest)) sid
        = some ((t :: rest).getLast (List.cons_ne_nil t rest)).token := by
  intro rest
  induction rest with
  | nil =>
    intro t st s hs hu haid ha htoks
    obtain ⟨hs', _⟩ := runTurn_getSession uid sid aid st s a t hs hu haid ha
      (htoks t (List.mem_cons_self t []))
    show storedToken (runTurn uid sid st t) sid = _
    unfold storedToken
    rw [hs']
    rfl
  | cons t2 rest2 ih =>
    intro t st s hs hu haid ha htoks
    obtain ⟨hs', ha'⟩ := runTurn_getSession uid sid aid st s a t hs hu haid ha
      (htoks t (List.mem_cons_self t (t2 :: rest2)))
    show storedToken (runTurns uid sid (runTurn uid sid st t) (t2 :: rest2)) sid = _
    exact ih t2 (runTurn uid sid st t)
      { s with responseId := some t.token, updatedAt := t.now }
      hs' hu haid ha' (fun x hx => htoks x (List.mem_cons_of_mem t hx))

/-- C1 counterexample: on the sample store, whose session already carries
token "a", a successful turn whose external call returns the empty token
leaves the stored token at "a" — the overwrite is skipped by the truthiness
guard `if (result.responseId)`, so the stored token does not equal the
token returned by that successful call. -/
theorem c1_counterexample :
    storedToken ((chatRoute sampleStore ("u1") ("s1") (some ("hi"))
        (.success ("ok") [] ("")) ("m1") ("m2") 7).1) ("s1") = some ("a")
    ∧ storedToken ((chatRoute sampleStore ("u1") ("s1") (some ("hi"))
        (.success ("ok") [] ("")) ("m1") ("m2") 7).1) ("s1") ≠ some ("") := by
  decide

/-- C1 (amended): after every successful turn whose returned continuation
token is non-empty, the session's stored token equals that turn's token —
whatever the citations, including none at all; hence after N such turns the
stored token is the Nth turn's token, never an earlier one. (A turn whose
returned token is empty is skipped by the code's truthiness guard and
leaves the previous token in place.) -/
theorem c1_continuation_token (uid sid aid : String) (st : MemStorage)
    (s : ChatSession) (a : Assistant)
    (hs : getSession st sid = some s) (hu : s.userId = some uid)
    (haid : s.assistantId = some aid) (ha : getAssistant st aid = some a)
    (ts : List Turn) (hne : ts ≠ []) (htoks : ∀ t ∈ ts, t.token ≠ "") :
    storedToken (runTurns uid sid st ts) sid = some ((ts.getLast hne).token) := by
  cases ts with
  | nil => exact absurd rfl hne
  | cons t rest =>
    exact runTurns_token_aux uid sid aid a rest t st s hs hu haid ha htoks

/-- Closed witness for the C1 amended theorem: two turns with tokens "r1"
then "r2" on the sample store leave "r2" stored. -/
theorem c1_witness :
    storedToken (runTurns ("u1") ("s1") sampleStore [turn1, turn2]) ("s1")
      = some ("r2") :=
  c1_continuation_token ("u1") ("s1") ("as1") sampleStore sampleSession
    sampleAssistant rfl rfl rfl rfl [turn1, turn2] (by decide)
    (by intro t ht; simp [List.mem_cons] at ht; rcases ht with rfl | rfl <;> decide)

/-- Lemma: a step of one concurrent request preserves the two-turn
invariant. -/
theorem concStep_inv (sid : String) (tA tB : TurnSpec)
    (hA : tA.token ≠ "") (hB : tB.token ≠ "")
    (s : ConcState) (pick : Bool) (hinv : ConcInv sid tA tB s) :
    ConcInv sid tA tB (concStep sid tA tB s pick) := by
  obtain ⟨⟨row, hrow⟩, hmA, hmB, htok⟩ := hinv
  rcases s with ⟨store, ⟨pcA, sentA⟩, ⟨pcB, sentB⟩⟩
  cases pick with
  | true =>
    rcases pcA with _ | _ | _ | _ | n
    · exact ⟨⟨row, hrow⟩,
        fun h => absurd (show (1 : Nat) ≥ 2 from h) (by omega),
        fun h => hmB (show pcB ≥ 2 from h),
        fun h => htok ((show (1 : Nat) ≥ 3 ∨ pcB ≥ 3 from h).elim
          (fun h1 => absurd h1 (by omega)) Or.inr)⟩
    · refine ⟨⟨_, getSession_createMessage_found store (userMsgOf sid tA) row hrow⟩,
        fun _ => mem_createMessage_self store (userMsgOf sid tA),
        fun h => mem_createMessage_mono store (userMsgOf sid tA) _
          (hmB (show pcB ≥ 2 from h)),
        fun h => ?_⟩
      show storedToken (createMessage store (userMsgOf sid tA)) sid = some tA.token
        ∨ storedToken (createMessage store (userMsgOf sid tA)) sid = some tB.token
      rw [storedToken_createMessage]
      exact htok ((show (2 : Nat) ≥ 3 ∨ pcB ≥ 3 from h).elim
        (fun h1 => absurd h1 (by omega)) Or.inr)
    · have hred : concStep sid tA tB ⟨store, ⟨2, sentA⟩, ⟨pcB, sentB⟩⟩ true
          = ⟨(updateSession store sid
                (fun x => { x with responseId := some tA.token }) tA.now).1,
             ⟨3, sentA⟩, ⟨pcB, sentB⟩⟩ := by
        show (⟨(if tA.token ≠ "" then
                  (updateSession store sid
                    (fun x => { x with responseId := some tA.token }) tA.now).1
                else store), ⟨3, sentA⟩, ⟨pcB, sentB⟩⟩ : ConcState) = _
        rw [if_pos hA]
      rw [hred]
      refine ⟨⟨_, getSession_updateSession store sid _ tA.now row (fun x => rfl) hrow⟩,
        fun _ => ?_, fun h => ?_, fun _ => ?_⟩
      · show userMsgOf sid tA ∈ ((updateSession store sid
          (fun x => { x with responseId := some tA.token }) tA.now).1).messages
        rw [messages_updateSession]
        exact hmA (show (2 : Nat) ≥ 2 by omega)
      · show userMsgOf sid tB ∈ ((updateSession store sid
          (fun x => { x with responseId := some tA.token }) tA.now).1).messages
        rw [messages_updateSession]
        exact hmB (show pcB ≥ 2 from h)
      · exact Or.inl (storedToken_writeToken store sid tA.token tA.now row hrow)
    · refine ⟨⟨_, getSession_createMessage_found store (asstMsgOf sid tA) row hrow⟩,
        fun _ => mem_createMessage_mono store (asstMsgOf sid tA) _
          (hmA (show (3 : Nat) ≥ 2 by omega)),
        fun h => mem_createMessage_mono store (asstMsgOf sid tA) _
          (hmB (show pcB ≥ 2 from h)),
        fun _ => ?_⟩
      show storedToken (createMessage store (asstMsgOf sid tA)) sid = some tA.token
        ∨ storedToken (createMessage store (asstMsgOf sid tA)) sid = some tB.token
      rw [storedToken_createMessage]
      exact htok (Or.inl (show (3 : Nat) ≥ 3 by omega))
    · exact ⟨⟨row, hrow⟩,
        fun h => hmA (show n + 4 ≥ 2 from h),
        fun h => hmB (show pcB ≥ 2 from h),
        fun h => htok (show n + 4 ≥ 3 ∨ pcB ≥ 3 from h)⟩
  | false =>
    rcases pcB with _ | _ | _ | _ | n
    · exact ⟨⟨row, hrow⟩,
        fun h => hmA (show pcA ≥ 2 from h),
        fun h => absurd (show (1 : Nat) ≥ 2 from h) (by omega),
        fun h => htok ((show pcA ≥ 3 ∨ (1 : Nat) ≥ 3 from h).elim
          Or.inl (fun h1 => absurd h1 (by omega)))⟩
    · refine ⟨⟨_, getSession_createMessage_found store (userMsgOf sid tB) row hrow⟩,
        fun h => mem_createMessage_mono store (userMsgOf sid tB) _
          (hmA (show pcA ≥ 2 from h)),
        fun _ => mem_createMessage_self store (userMsgOf sid tB),
        fun h => ?_⟩
      show storedToken (createMessage store (userMsgOf sid tB)) sid = some tA.token
        ∨ storedToken (createMessage store (userMsgOf sid tB)) sid = some tB.token
      rw [storedToken_createMessage]
      exact htok ((show pcA ≥ 3 ∨ (2 : Nat) ≥ 3 from h).elim
        Or.inl (fun h1 => absurd h1 (by omega)))
    · have hred : concStep sid tA tB ⟨store, ⟨pcA, sentA⟩, ⟨2, sentB⟩⟩ false
          = ⟨(updateSession store sid
                (fun x => { x with responseId := some tB.token }) tB.now).1,
             ⟨pcA, sentA⟩, ⟨3, sentB⟩⟩ := by
        show (⟨(if tB.token ≠ "" then
                  (updateSession store sid
                    (fun x => { x with responseId := some tB.token }) tB.now).1
                else store), ⟨pcA, sentA⟩, ⟨3, sentB⟩⟩ : ConcState) = _
        rw [if_pos hB]
      rw [hred]
      refine ⟨⟨_, getSession_updateSession store sid _ tB.now row (fun x => rfl) hrow⟩,
        fun h => ?_, fun _ => ?_, fun _ => ?_⟩
      · show userMsgOf sid tA ∈ ((updateSession store sid
          (fun x => { x with responseId := some tB.token }) tB.now).1).messages
        rw [messages_updateSession]
        exact hmA (show pcA ≥ 2 from h)
      · show userMsgOf sid tB ∈ ((updateSession store sid
          (fun x => { x with responseId := some tB.token }) tB.now).1).messages
        rw [messages_updateSession]
        exact hmB (show (2 : Nat) ≥ 2 by omega)
      · exact Or.inr (storedToken_writeToken store sid tB.token tB.now row hrow)
    · refine ⟨⟨_, getSession_createMessage_found store (asstMsgOf sid tB) row hrow⟩,
        fun h => mem_createMessage_mono store (asstMsgOf sid tB) _
          (hmA (show pcA ≥ 2 from h)),
        fun _ => mem_createMessage_mono store (asstMsgOf sid tB) _
          (hmB (show (3 : Nat) ≥ 2 by omega)),
        fun _ => ?_⟩
      show storedToken (createMessage store (asstMsgOf sid tB)) sid = some tA.token
        ∨ storedToken (createMessage store (asstMsgOf sid tB)) sid = some tB.token
      rw [storedToken_createMessage]
      exact htok (Or.inr (show (3 : Nat) ≥ 3 by omega))
    · exact ⟨⟨row, hrow⟩,
        fun h => hmA (show pcA ≥ 2 from h),
        fun h => hmB (show n + 4 ≥ 2 from h),
        fun h => htok (show pcA ≥ 3 ∨ n + 4 ≥ 3 from h)⟩

/-- Lemma: the two-turn invariant is preserved over any whole schedule. -/
theorem execSched_inv (sid : String) (tA tB : TurnSpec)
    (hA : tA.token ≠ "") (hB : tB.token ≠ "") :
    ∀ (sch : List Bool) (s : ConcState),
      ConcInv sid tA tB s → ConcInv sid tA tB (execSched sid tA tB sch s) := by
  intro sch
  induction sch with
  | nil => intro s h; exact h
  | cons p rest ih =>
    intro s h
    exact ih _ (concStep_inv sid tA tB hA hB s p h)

/-- Lemma: a request's program counter advances by one per step, capped at
four. -/
theorem turnStep_pc (sid : String) (t : TurnSpec) (st : MemStorage) (c : TurnCtl) :
    ((turnStep sid t st c).2).pc = if c.pc < 4 then c.pc + 1 else c.pc := by
  rcases c with ⟨pc, sent⟩
  rcases pc with _ | _ | _ | _ | n
  · rfl
  · rfl
  · rfl
  · rfl
  · show n + 4 = if n + 4 < 4 then n + 5 else n + 4
    rw [if_neg (show ¬ (n + 4 < 4) by omega)]

/-- Lemma: request A's program counter after a schedule is its step count,
capped at four. -/
theorem execSched_pcA (sid : String) (tA tB : TurnSpec) :
    ∀ (sch : List Bool) (s : ConcState), s.ctlA.pc ≤ 4 →
      (execSched sid tA tB sch s).ctlA.pc = min 4 (s.ctlA.pc + sch.count true) := by
  intro sch
  induction sch with
  | nil =>
    intro s hle
    show s.ctlA.pc = min 4 (s.ctlA.pc + List.count true [])
    rw [List.count_nil]
    omega
  | cons p rest ih =>
    intro s hle
    show (execSched sid tA tB rest (concStep sid tA tB s p)).ctlA.pc = _
    cases p with
    | true =>
      have hstep : (concStep sid tA tB s true).ctlA.pc
          = if s.ctlA.pc < 4 then s.ctlA.pc + 1 else s.ctlA.pc :=
        turnStep_pc sid tA s.store s.ctlA
      rw [ih (concStep sid tA tB s true) (by rw [hstep]; split <;> omega), hstep,
        List.count_cons]
      split <;> simp <;> omega
    | false =>
      have hstep : (concStep sid tA tB s false).ctlA = s.ctlA := rfl
      rw [ih (concStep sid tA tB s false) (by rw [hstep]; exact hle), hstep,
        List.count_cons]
      simp

/-- Lemma: request B's program counter after a schedule is its step count,
capped at four. -/
theorem execSched_pcB (sid : String) (tA tB : TurnSpec) :
    ∀ (sch : List Bool) (s : ConcState), s.ctlB.pc ≤ 4 →
      (execSched sid tA tB sch s).ctlB.pc = min 4 (s.ctlB.pc + sch.count false) := by
  intro sch
  induction sch with
  | nil =>
    intro s hle
    show s.ctlB.pc = min 4 (s.ctlB.pc + List.count false [])
    rw [List.count_nil]
    omega
  | cons p rest ih =>
    intro s hle
    show (execSched sid tA tB rest (concStep sid tA tB s p)).ctlB.pc = _
    cases p with
    | false =>
      have hstep : (concStep sid tA tB s false).ctlB.pc
          = if s.ctlB.pc < 4 then s.ctlB.pc + 1 else s.ctlB.pc :=
        turnStep_pc sid tB s.store s.ctlB
      rw [ih (concStep sid tA tB s false) (by rw [hstep]; split <;> omega), hstep,
        List.count_cons]
      split <;> simp <;> omega
    | true =>
      have hstep : (concStep sid tA tB s true).ctlB = s.ctlB := rfl
      rw [ih (concStep sid tA tB s true) (by rw [hstep]; exact hle), hstep,
        List.count_cons]
      simp

/-- C9 counterexample: the chat handler has no per-session lock, so the
interleaved schedule is reachable; its observable upstream requests (the
continuation tokens the two calls captured and sent) differ from those of
both serial orders — the two concurrent calls were not serialized — while
both calls still complete (request B chains no token even though request A
has already produced one, and B's token overwrite lands last). -/
theorem c9_counterexample :
    c9Obs schedInterleaved ≠ c9Obs schedAB
    ∧ c9Obs schedInterleaved ≠ c9Obs schedBA
    ∧ (c9Run schedInterleaved).ctlB.sent = none
    ∧ storedToken (c9Run schedInterleaved).store ("s1") = some ("rb") := by
  decide

/-- C9 (amended): the code provides no per-session mutual exclusion — see
the counterexample — but for every interleaving of two concurrent turns
with non-empty tokens, neither turn's user message is lost and exactly one
of the two tokens survives as the session's stored continuation token
(last write wins). -/
theorem c9_last_write_wins (sid : String) (tA tB : TurnSpec) (st0 : MemStorage)
    (s0 : ChatSession) (hs : getSession st0 sid = some s0)
    (hA : tA.token ≠ "") (hB : tB.token ≠ "")
    (sch : List Bool) (hcA : sch.count true = 4) (hcB : sch.count false = 4) :
    userMsgOf sid tA
      ∈ (execSched sid tA tB sch ⟨st0, initCtl, initCtl⟩).store.messages
    ∧ userMsgOf sid tB
      ∈ (execSched sid tA tB sch ⟨st0, initCtl, initCtl⟩).store.messages
    ∧ (storedToken (execSched sid tA tB sch ⟨st0, initCtl, initCtl⟩).store sid
          = some tA.token
       ∨ storedToken (execSched sid tA tB sch ⟨st0, initCtl, initCtl⟩).store sid
          = some tB.token) := by
  have hinv := execSched_inv sid tA tB hA hB sch ⟨st0, initCtl, initCtl⟩
    ⟨⟨s0, hs⟩,
     fun h => absurd (show (0 : Nat) ≥ 2 from h) (by omega),
     fun h => absurd (show (0 : Nat) ≥ 2 from h) (by omega),
     fun h => (show (0 : Nat) ≥ 3 ∨ (0 : Nat) ≥ 3 from h).elim
       (fun h1 => absurd h1 (by omega)) (fun h1 => absurd h1 (by omega))⟩
  have hpcA : (execSched sid tA tB sch ⟨st0, initCtl, initCtl⟩).ctlA.pc = 4 := by
    rw [execSched_pcA sid tA tB sch ⟨st0, initCtl, initCtl⟩
      (by show (0 : Nat) ≤ 4; omega), hcA]
    show (4 : Nat) ⊓ (0 + 4) = 4
    omega
  have hpcB : (execSched sid tA tB sch ⟨st0, initCtl, initCtl⟩).ctlB.pc = 4 := by
    rw [execSched_pcB sid tA tB sch ⟨st0, initCtl, initCtl⟩
      (by show (0 : Nat) ≤ 4; omega), hcB]
    show (4 : Nat) ⊓ (0 + 4) = 4
    omega
  obtain ⟨_, hA2, hB2, htk⟩ := hinv
  exact ⟨hA2 (by rw [hpcA]; omega), hB2 (by rw [hpcB]; omega),
    htk (Or.inl (by rw [hpcA]; omega))⟩

/-- Closed witness for the C9 amended theorem: the interleaved schedule of
the concurrency scenario keeps both user messages and stores one token. -/
theorem c9_witness :
    userMsgOf ("s1") specA
      ∈ (execSched ("s1") specA specB schedInterleaved
          ⟨freshStore, initCtl, initCtl⟩).store.messages :=
  (c9_last_write_wins ("s1") specA specB freshStore freshSession rfl
    (by decide) (by decide) schedInterleaved (by decide) (by decide)).1

end CustomGpt
